import Mathlib

/-!
Shallow embedding of `build-openmw.py` (version 1.10), a build-and-packaging
script for OpenMW and TES3MP.  The script is a linear sequence of shell-outs
gated by flags, so each function of interest is embedded as a pure Lean
function that returns the trace of external actions it performs (an `Eff`
list) together with how the run ends (an `Outcome`).  Results of external
commands come from an oracle of type `Exec`; filesystem queries
(`os.path.exists`, `os.path.isfile`, `os.path.isdir`) come from an `FS`
record of predicates.  `error_and_die`, which writes `ERROR: <msg>` to
stderr and calls `sys.exit(1)`, is modelled by the `Outcome.die` constructor;
an uncaught Python exception is `Outcome.exn`.
-/

namespace BuildOpenmw

/-- `os.path.join a b` for the two-component joins used by the script
(no component here is absolute or ends in a separator). -/
def pjoin (a b : String) : String := a ++ "/" ++ b

/-- Whether `needle` occurs as a contiguous run inside `hay`. -/
def charListInfix (needle : List Char) : List Char → Bool
  | [] => needle.isEmpty
  | c :: cs => needle.isPrefixOf (c :: cs) || charListInfix needle cs

/-- Python `needle in hay` substring test on strings. -/
def strContains (hay needle : String) : Bool :=
  charListInfix needle.toList hay.toList

/-- Python `str.lower()` (the distro names involved are ASCII). -/
def pyLower (s : String) : String := String.mk (s.toList.map Char.toLower)

/-- Python truthiness of an optional byte-string (`if err:`): `None` and the
empty string are falsy, everything else truthy. -/
def optTruthy : Option String → Bool
  | none => false
  | some s => s != ""

-- Module-level constants of the script (lines 12-37).
def BULLET_VERSION : String := "2.86.1"
def MYGUI_VERSION : String := "3.2.2"
def UNSHIELD_VERSION : String := "1.4.2"
def OPENMW_OSG_BRANCH : String := "3.4"
def UPSTREAM_OSG_VERSION : String := "OpenSceneGraph-3.6.5"

/-- `INSTALL_PREFIX = os.path.join("/", "opt", "build-openmw")`. -/
def INSTALL_PREFIX : String := "/opt/build-openmw"

/-- `SRC_DIR = os.path.join(INSTALL_PREFIX, "src")`. -/
def SRC_DIR : String := pjoin INSTALL_PREFIX "src"

/-- One observable external action of the script: a log line, a spawned
subprocess, a working-directory change, or a filesystem mutation. -/
inductive Eff
  | log (msg : String)
  | logOut (bytes : Option String)
  | chdir (path : String)
  | chdirPrev
  | shell (args : List String)
  | rmtree (path : String)
  | mkdir (path : String)
  | makedirs (path : String)
  | remove (path : String)
  | systemCmd (cmd : String)
  | copy (src dst : String)
  | copytree (src dst : String)
  | tarCreate (path : String)
  deriving DecidableEq

/-- How a run ends: normal return, `error_and_die` (error message printed to
stderr followed by `sys.exit(1)`, a nonzero exit status), or an uncaught
Python exception (also a nonzero process exit). -/
inductive Outcome
  | ok
  | die (msg : String)
  | exn (name : String)
  deriving DecidableEq

/-- Filesystem queries as an oracle.  `pathExistsAfterClone` is the
re-query of `os.path.exists` that `build_library` performs right after a
`git clone` attempt (the clone may have created the directory, so it is a
distinct observation of the changing world). -/
structure FS where
  pathExists : String → Bool
  isFile : String → Bool
  isDir : String → Bool
  pathExistsAfterClone : String → Bool

/-- What a finished subprocess produced: its exit status and the bytes it
wrote to stdout and stderr. -/
structure ShellRes where
  code : Int
  out : String
  err : String

/-- Oracle giving each spawned command its result.  The environment dict the
script sometimes threads into `subprocess.Popen` is not modelled separately;
the oracle is understood to close over it. -/
def Exec : Type := List String → ShellRes

/-- What `execute_shell` hands back to the caller: `p.returncode` and the
`communicate()` pair, which is `(None, None)` when `verbose` (no pipes). -/
structure ExecOut where
  code : Int
  out : Option String
  err : Option String

/-- `execute_shell` (lines 80-90): logs the command at DEBUG level, spawns
it, and returns its exit status plus captured output (captured only when not
verbose). -/
def runShell (exec : Exec) (args : List String) (verbose : Bool) :
    List Eff × ExecOut :=
  let r := exec args
  ([Eff.log ("EXECUTING: " ++ String.intercalate " " args), Eff.shell args],
   ⟨r.code, if verbose then none else some r.out,
    if verbose then none else some r.err⟩)

/-- Trace of an `execute_shell` call whose result the source discards. -/
def shellSeg (args : List String) : List Eff :=
  [Eff.log ("EXECUTING: " ++ String.intercalate " " args), Eff.shell args]

/-- `_git_clean_src` (lines 112-149): chdir into the checkout, discard local
changes, then reset to the desired revision.  The source has a dangling
`else`: the `if libname == "osg-openmw"` block is followed by a separate
`if libname == "osg": ... else: ...`, so for `osg-openmw` BOTH the reset to
the fork branch AND the final reset to `version` run.  Note also that the
log message in the `osg` branch interpolates `OPENMW_OSG_BRANCH`, not the
tag it actually checks out.  The git results are discarded by the source. -/
def git_clean_src (libname clone_dest src_dir : String) (verbose : Bool)
    (version : String) : List Eff :=
  [Eff.chdir (pjoin src_dir clone_dest),
   Eff.log (libname ++ " executing source clean")]
  ++ shellSeg ["git", "checkout", "--", "."]
  ++ shellSeg ["git", "clean", "-df"]
  ++ (if libname = "osg-openmw" then
        [Eff.log (libname ++ " resetting source to the desired rev ("
            ++ OPENMW_OSG_BRANCH ++ ")")]
        ++ shellSeg ["git", "checkout", OPENMW_OSG_BRANCH]
        ++ shellSeg ["git", "reset", "--hard", "origin/" ++ OPENMW_OSG_BRANCH]
      else [])
  ++ (if libname = "osg" then
        [Eff.log (libname ++ " resetting source to the desired rev ("
            ++ OPENMW_OSG_BRANCH ++ ")")]
        ++ shellSeg ["git", "checkout", UPSTREAM_OSG_VERSION]
        ++ shellSeg ["git", "reset", "--hard", "origin/" ++ UPSTREAM_OSG_VERSION]
      else
        [Eff.log (libname ++ " resetting source to the desired rev ("
            ++ version ++ ")")]
        ++ shellSeg ["git", "checkout", version]
        ++ shellSeg ["git", "reset", "--hard", version])

/-- The cmake command `build_library` assembles (lines 193-199). -/
def cmake_cmd (installPrefix libname : String)
    (cmake_args : Option (List String)) (cmake_target : String) :
    List String :=
  ["cmake", "-DCMAKE_INSTALL_PREFIX=" ++ installPrefix ++ "/" ++ libname]
    ++ (match cmake_args with | some l => l | none => [])
    ++ [cmake_target]

/-- `build_library` lines 205-219: the `make -jN` compile and the optional
`make install`.  Compile fatality checks the exit status; install fatality
checks only whether captured stderr is truthy (`if err:`), not the exit
status, and when `verbose` the stderr is `None`, never truthy. -/
def build_library_compile (exec : Exec) (libname : String) (cpus : Nat)
    (make_install : Bool) (verbose : Bool) : List Eff × Outcome :=
  let m := runShell exec ["make", "-j" ++ toString cpus] verbose
  let pre := [Eff.log (libname ++ " running make (this will take a while) ...")]
    ++ m.1
  if m.2.code ≠ 0 then
    (pre ++ [Eff.logOut m.2.err], Outcome.die "make exited nonzero!")
  else if make_install then
    let i := runShell exec ["make", "install"] verbose
    let pre2 := pre ++ [Eff.log (libname ++ " running make install ...")] ++ i.1
    if optTruthy i.2.err then
      (pre2, Outcome.die (i.2.err.getD ""))
    else
      (pre2 ++ [Eff.log (libname ++ " installed successfully")], Outcome.ok)
  else (pre, Outcome.ok)

/-- `build_library` lines 182-219: chdir into the checkout, the optional
cmake configure step (fatal on nonzero exit, after logging the captured
stderr), then compile and install. -/
def build_library_configure (fs : FS) (exec : Exec)
    (libname clone_dest : String) (cmake : Bool)
    (cmake_args : Option (List String)) (cmake_target : String) (cpus : Nat)
    (installPrefix : String) (make_install : Bool) (src_dir : String)
    (verbose : Bool) : List Eff × Outcome :=
  let cd := [Eff.chdir (pjoin src_dir clone_dest)]
  if cmake then
    let build_dir := pjoin (pjoin src_dir clone_dest) "build"
    let rmSeg := if fs.isDir build_dir then [Eff.rmtree build_dir] else []
    let c := runShell exec (cmake_cmd installPrefix libname cmake_args cmake_target) verbose
    let pre := cd ++ [Eff.log (libname ++ " building with cmake")] ++ rmSeg
      ++ [Eff.mkdir build_dir, Eff.chdir build_dir,
          Eff.log (libname ++ " running cmake ...")] ++ c.1
    if c.2.code ≠ 0 then
      (pre ++ [Eff.logOut c.2.err], Outcome.die "cmake exited nonzero!")
    else
      let rest := build_library_compile exec libname cpus make_install verbose
      (pre ++ rest.1, rest.2)
  else
    let rest := build_library_compile exec libname cpus make_install verbose
    (cd ++ rest.1, rest.2)

/-- `build_library` lines 170-219, the non-skip path once any cloning is
done: forced removal of a previous install, `_git_clean_src`, the optional
patch (`os.system`, whose status is the `patchCode` oracle), then configure,
compile and install. -/
def build_library_after_clone (fs : FS) (exec : Exec)
    (libname clone_dest : String) (cmake : Bool)
    (cmake_args : Option (List String)) (cmake_target : String) (cpus : Nat)
    (force : Bool) (installPrefix : String) (make_install : Bool)
    (patch : Option String) (patchCode : Int) (src_dir : String)
    (verbose : Bool) (version : String) : List Eff × Outcome :=
  let forceSeg :=
    if force && fs.pathExists (pjoin installPrefix libname) then
      [Eff.log (libname ++ " forcing removal of previous install"),
       Eff.rmtree (pjoin installPrefix libname)]
    else []
  let cleanSeg := git_clean_src libname clone_dest src_dir verbose version
  match patch with
  | some p =>
    let patchSeg := [Eff.log ("Applying patch: " ++ p),
                     Eff.systemCmd ("patch -p1 < " ++ p)]
    if patchCode > 0 then
      (forceSeg ++ cleanSeg ++ patchSeg,
       Outcome.die "There was a problem applying the patch!")
    else
      let rest := build_library_configure fs exec libname clone_dest cmake
        cmake_args cmake_target cpus installPrefix make_install src_dir verbose
      (forceSeg ++ cleanSeg ++ patchSeg ++ rest.1, rest.2)
  | none =>
    let rest := build_library_configure fs exec libname clone_dest cmake
      cmake_args cmake_target cpus installPrefix make_install src_dir verbose
    (forceSeg ++ cleanSeg ++ rest.1, rest.2)

/-- `build_library` (lines 93-219).  The `quiet` parameter of the source is
never consulted by its body and is omitted; `git_url` is used only by the
clone commands.  Skip entirely when the check file exists, is a regular
file, and `force` is not set; otherwise clone if the source directory is
missing (dying when it still does not exist afterwards), then hand over to
the clean/configure/compile/install path. -/
def build_library (fs : FS) (exec : Exec) (libname check_file : String)
    (clone_dest : Option String) (cmake : Bool)
    (cmake_args : Option (List String)) (cmake_target : String) (cpus : Nat)
    (force : Bool) (installPrefix : String) (git_url : String)
    (make_install : Bool) (patch : Option String) (patchCode : Int)
    (src_dir : String) (verbose : Bool) (version : String) :
    List Eff × Outcome :=
  let cd := clone_dest.getD libname
  if fs.pathExists check_file && fs.isFile check_file && !force then
    ([Eff.log (libname ++ " found!")], Outcome.ok)
  else
    let t0 := [Eff.log (libname ++ " building now ...")]
    if !fs.pathExists (pjoin src_dir cd) then
      let cloneCmd :=
        if strContains cd "osg-openmw" then
          ["git", "clone", "-b", OPENMW_OSG_BRANCH, git_url, cd]
        else ["git", "clone", git_url, cd]
      let cloneSeg :=
        [Eff.log (cd ++ " source directory not found, cloning..."),
         Eff.chdir src_dir] ++ shellSeg cloneCmd
      if !fs.pathExistsAfterClone (pjoin src_dir libname) then
        (t0 ++ cloneSeg,
         Outcome.die ("Could not clone " ++ cd ++ " for some reason!"))
      else
        let rest := build_library_after_clone fs exec libname cd cmake
          cmake_args cmake_target cpus force installPrefix make_install patch
          patchCode src_dir verbose version
        (t0 ++ cloneSeg ++ rest.1, rest.2)
    else
      let rest := build_library_after_clone fs exec libname cd cmake
        cmake_args cmake_target cpus force installPrefix make_install patch
        patchCode src_dir verbose version
      (t0 ++ rest.1, rest.2)

/-- The `for` loops of `make_portable_package` that copy each file to a
destination, logging each copy at DEBUG level. -/
def copySeg (files : List String) (dst : String) : List Eff :=
  (files.map fun f => [Eff.log ("Copying " ++ f ++ " to " ++ dst),
                       Eff.copy f dst]).flatten

/-- The server-only binary tuple (lines 308-316), `os.path.join` resolved. -/
def serverBins : List String :=
  ["/opt/build-openmw/src/tes3mp/build/tes3mp-server",
   "/opt/build-openmw/src/tes3mp/build/tes3mp-server-default.cfg",
   "/opt/build-openmw/src/tes3mp/AUTHORS.md",
   "/opt/build-openmw/src/tes3mp/LICENSE",
   "/opt/build-openmw/src/tes3mp/README.md",
   "/opt/build-openmw/src/tes3mp/tes3mp-credits.md"]

/-- The client binary tuple (lines 317-332), `os.path.join` resolved. -/
def clientBins : List String :=
  ["/opt/build-openmw/src/tes3mp/build/bsatool",
   "/opt/build-openmw/src/tes3mp/build/esmtool",
   "/opt/build-openmw/src/tes3mp/build/openmw-essimporter",
   "/opt/build-openmw/src/tes3mp/build/openmw-iniimporter",
   "/opt/build-openmw/src/tes3mp/build/openmw-launcher",
   "/opt/build-openmw/src/tes3mp/build/openmw-wizard",
   "/opt/build-openmw/src/tes3mp/build/settings-default.cfg",
   "/opt/build-openmw/src/tes3mp/build/tes3mp",
   "/opt/build-openmw/src/tes3mp/build/tes3mp-browser",
   "/opt/build-openmw/src/tes3mp/build/tes3mp-client-default.cfg",
   "/opt/build-openmw/src/tes3mp/build/tes3mp-server",
   "/opt/build-openmw/src/tes3mp/build/tes3mp-server-default.cfg",
   "/opt/build-openmw/src/tes3mp/tes3mp-credits.md"]

/-- System libraries for a TES3MP_FORGE dockerised build (lines 336-363). -/
def forgeSystemLibs : List String :=
  ["/usr/local/lib64/libstdc++.so.6",
   "/usr/local/lib/libMyGUIEngine.so.3.2.3",
   "/usr/local/lib/libavcodec.so.58",
   "/usr/local/lib/libavformat.so.58",
   "/usr/local/lib/libavutil.so.56",
   "/usr/local/lib/libboost_filesystem.so.1.64.0",
   "/usr/local/lib/libboost_program_options.so.1.64.0",
   "/usr/local/lib/libboost_system.so.1.64.0",
   "/usr/local/lib/libswresample.so.3",
   "/usr/local/lib/libswscale.so.5",
   "/usr/local/lib64/libOpenThreads.so.20",
   "/usr/local/lib64/libosg.so.130",
   "/usr/local/lib64/libosgAnimation.so.130",
   "/usr/local/lib64/libosgDB.so.130",
   "/usr/local/lib64/libosgFX.so.130",
   "/usr/local/lib64/libosgGA.so.130",
   "/usr/local/lib64/libosgParticle.so.130",
   "/usr/local/lib64/libosgText.so.130",
   "/usr/local/lib64/libosgUtil.so.130",
   "/usr/local/lib64/libosgViewer.so.130",
   "/usr/local/lib64/libosgWidget.so.130",
   "/usr/lib/x86_64-linux-gnu/libSDL2.a",
   "/usr/lib/x86_64-linux-gnu/libSDL2-2.0.so.0",
   "/usr/lib/x86_64-linux-gnu/libopenal.so",
   "/usr/lib/x86_64-linux-gnu/libluajit-5.1.so.2",
   "/usr/lib/x86_64-linux-gnu/libpng12.so.0"]

/-- System libraries for a Void Linux host (lines 379-395). -/
def voidSystemLibs : List String :=
  ["/usr/lib/libavcodec.so.58",
   "/usr/lib/libavformat.so.58",
   "/usr/lib/libavutil.so.56",
   "/usr/lib/libboost_filesystem.so",
   "/usr/lib/libboost_program_options.so",
   "/usr/lib/libboost_system.so",
   "/usr/lib/libboost_thread.so",
   "/usr/lib/libswresample.so",
   "/usr/lib/libswscale.so",
   "/usr/lib/libSDL2.so",
   "/usr/lib/libbz2.so",
   "/usr/lib/libopenal.so",
   "/usr/lib/libluajit-5.1.so",
   "/usr/lib/libpng16.so"]

/-- System libraries for an Ubuntu or Debian host (lines 398-415). -/
def debianSystemLibs : List String :=
  ["/usr/lib/x86_64-linux-gnu/libavcodec.so",
   "/usr/lib/x86_64-linux-gnu/libavformat.so",
   "/usr/lib/x86_64-linux-gnu/libavutil.so",
   "/usr/lib/x86_64-linux-gnu/libboost_filesystem.so.1.67.0",
   "/usr/lib/x86_64-linux-gnu/libboost_program_options.so.1.67.0",
   "/usr/lib/x86_64-linux-gnu/libboost_system.so.1.67.0",
   "/usr/lib/x86_64-linux-gnu/libboost_thread.so.1.67.0",
   "/usr/lib/x86_64-linux-gnu/libswresample.so",
   "/usr/lib/x86_64-linux-gnu/libswscale.so",
   "/usr/lib/x86_64-linux-gnu/libSDL2.so",
   "/usr/lib/x86_64-linux-gnu/libbz2.so",
   "/usr/lib/x86_64-linux-gnu/libluajit-5.1.so",
   "/usr/lib/x86_64-linux-gnu/libopenal.so",
   "/usr/lib/x86_64-linux-gnu/libpng16.so"]

/-- Built libraries packaged for a server-only build (lines 417-432). -/
def serverOpenmwLibs : List String :=
  ["/opt/build-openmw/src/bullet/build/src/BulletCollision/libBulletCollision.so.2.86",
   "/opt/build-openmw/src/bullet/build/src/LinearMath/libLinearMath.so.2.86",
   "/opt/build-openmw/src/mygui/build/lib/libMyGUIEngine.so.3.4.0",
   "/opt/build-openmw/src/unshield/build/lib/libunshield.so"]

/-- Built libraries packaged for a client build (lines 434-464).  The
TES3MP_FORGE branch at lines 364-377 also assigns `openmw_libs`, but that
assignment is unconditionally overwritten by this `if serveronly
... else ...`, so it never survives to the copy loop. -/
def clientOpenmwLibs : List String :=
  ["/opt/build-openmw/src/bullet/build/src/BulletCollision/libBulletCollision.so.2.86",
   "/opt/build-openmw/src/bullet/build/src/LinearMath/libLinearMath.so.2.86",
   "/opt/build-openmw/src/mygui/build/lib/libMyGUIEngine.so.3.4.0",
   "/opt/build-openmw/src/unshield/build/lib/libunshield.so",
   "/opt/build-openmw/src/osg-openmw/build/lib/libOpenThreads.so.20",
   "/opt/build-openmw/src/osg-openmw/build/lib/libosg.so.130",
   "/opt/build-openmw/src/osg-openmw/build/lib/libosgAnimation.so.130",
   "/opt/build-openmw/src/osg-openmw/build/lib/libosgDB.so.130",
   "/opt/build-openmw/src/osg-openmw/build/lib/libosgFX.so.130",
   "/opt/build-openmw/src/osg-openmw/build/lib/libosgGA.so.130",
   "/opt/build-openmw/src/osg-openmw/build/lib/libosgParticle.so.130",
   "/opt/build-openmw/src/osg-openmw/build/lib/libosgText.so.130",
   "/opt/build-openmw/src/osg-openmw/build/lib/libosgUtil.so.130",
   "/opt/build-openmw/src/osg-openmw/build/lib/libosgViewer.so.130",
   "/opt/build-openmw/src/osg-openmw/build/lib/libosgWidget.so.130"]

/-- `make_portable_package` (lines 284-515).  `tmpdir` stands for the fresh
directory `tempfile.mkdtemp(suffix=pkgname)` returns; `tes3mpForge` for the
`TES3MP_FORGE` environment marker.  The overwrite guard comes before any
staging work: an existing archive is fatal without `force` and removed with
it.  On a host that is neither a forge build, nor Void, nor Ubuntu or
Debian, the name `system_libs` is never bound and the later copy loop
raises a `NameError`. -/
def make_portable_package (fs : FS) (pkgname distro : String) (force : Bool)
    (out_dir : String) (serveronly tes3mpForge : Bool) (tmpdir : String) :
    List Eff × Outcome :=
  let mkSeg :=
    if !fs.isDir out_dir then
      [Eff.log ("Out dir doesn\x27t exist, creating it: " ++ out_dir),
       Eff.makedirs out_dir]
    else []
  let pkg_path := pjoin out_dir (pkgname ++ ".tar.bz2")
  if fs.pathExists pkg_path && !force then
    (mkSeg, Outcome.die ("Path exists: " ++ pkg_path))
  else
    let rmSeg :=
      if fs.pathExists pkg_path && force then
        [Eff.log ("Force removing " ++ pkg_path), Eff.remove pkg_path]
      else []
    let pkg_dir := pjoin tmpdir pkgname
    let pkg_libs := pjoin pkg_dir "lib"
    let bins := if serveronly then serverBins else clientBins
    let systemLibsOpt : Option (List String) :=
      if tes3mpForge then some forgeSystemLibs
      else if strContains distro "Void" then some voidSystemLibs
      else if strContains distro "Ubuntu" || strContains distro "Debian" then
        some debianSystemLibs
      else none
    let openmwLibs := if serveronly then serverOpenmwLibs else clientOpenmwLibs
    let head := mkSeg ++ rmSeg
      ++ [Eff.log ("Creating a portable package: " ++ pkg_path),
          Eff.log ("Making: " ++ pkg_dir),
          Eff.makedirs pkg_libs,
          Eff.log "Copying binaries"]
      ++ copySeg bins pkg_dir
      ++ [Eff.log "Copying system libs"]
    match systemLibsOpt with
    | none => (head, Outcome.exn "NameError")
    | some system_libs =>
      let t := head ++ copySeg system_libs pkg_libs
        ++ [Eff.log "Copying openmw libs"]
        ++ copySeg openmwLibs pkg_libs
        ++ [Eff.log "Copying resources",
            Eff.copytree "/opt/build-openmw/src/tes3mp/build/resources"
              (pjoin pkg_dir "resources")]
        ++ (if serveronly then
              [Eff.log "Copying osgPlugins-3.4.0",
               Eff.copytree "/usr/lib/x86_64-linux-gnu/osgPlugins-3.4.0"
                 (pjoin pkg_libs "osgPlugins-3.4.0")]
            else
              [Eff.log "Copying osgPlugins-3.4.1",
               Eff.copytree "/opt/build-openmw/src/osg-openmw/build/lib/osgPlugins-3.4.1"
                 (pjoin pkg_libs "osgPlugins-3.4.1")])
        ++ [Eff.chdir tmpdir,
            Eff.log ("Creating package now: " ++ pkg_path),
            Eff.tarCreate pkg_path,
            Eff.chdirPrev,
            Eff.log ("Removing: " ++ tmpdir),
            Eff.rmtree tmpdir]
      (t, Outcome.ok)

/-- `True` for the effects that write or delete the output archive. -/
def isArchiveWrite : Eff → Bool
  | Eff.tarCreate _ => true
  | Eff.remove _ => true
  | _ => false

-- Package lists (lines 30-34).  Each is the result of the `.split()` on the
-- whitespace-separated string literal in the source; `ARCH_PKGS` splits the
-- empty string, which Python resolves to the empty list.
def ARCH_PKGS : List String := []

def DEBIAN_PKGS : List String :=
  ["git", "libopenal-dev", "libbullet-dev", "libsdl2-dev", "qt5-default",
   "libfreetype6-dev", "libboost-filesystem-dev", "libboost1.71-dev",
   "libboost-thread-dev", "libboost-program-options-dev",
   "libboost-system-dev", "libavcodec-dev", "libavformat-dev",
   "libavutil-dev", "libswscale-dev", "cmake", "build-essential",
   "libqt5opengl5-dev"]

def REDHAT_PKGS : List String :=
  ["openal-devel", "SDL2-devel", "qt5-devel", "boost-filesystem", "git",
   "boost-thread", "boost-program-options", "boost-system", "ffmpeg-devel",
   "ffmpeg-libs", "gcc-c++", "tinyxml-devel", "cmake"]

def UBUNTU_PKGS : List String :=
  ["libfreetype6-dev", "libbz2-dev", "liblzma-dev"] ++ DEBIAN_PKGS

def VOID_PKGS : List String :=
  ["SDL2-devel", "boost-devel", "bullet-devel", "cmake", "ffmpeg-devel",
   "freetype-devel", "gcc", "git", "libXt-devel", "libavformat", "libavutil",
   "libmygui-devel", "libopenal-devel", "libopenjpeg2-devel",
   "libswresample", "libswscale", "libtxc_liblzma-devel",
   "libunshield-devel", "python-devel", "python3-devel", "qt5-devel",
   "zlib-devel"]

/-- The mutable module-level package lists, threaded as explicit state
because `main` appends to some of them before `install_packages` reads
them. -/
structure Pkgs where
  arch : List String
  debian : List String
  redhat : List String
  ubuntu : List String
  void : List String
  deriving DecidableEq

/-- The lists as defined at module load (lines 30-34). -/
def initPkgs : Pkgs :=
  ⟨ARCH_PKGS, DEBIAN_PKGS, REDHAT_PKGS, UBUNTU_PKGS, VOID_PKGS⟩

/-- The package-list mutations in `main` (lines 867-880): each of
`--tes3mp` and `--tes3mp-server-only` appends `libluajit-5.1-dev` to the
Debian and Ubuntu lists and `LuaJIT-devel` to the Void list (both flags set
appends twice). -/
def applyTes3mpFlags (tes3mp tes3mp_server_only : Bool) (p : Pkgs) : Pkgs :=
  let p1 :=
    if tes3mp then
      { p with debian := p.debian ++ ["libluajit-5.1-dev"],
               ubuntu := p.ubuntu ++ ["libluajit-5.1-dev"],
               void := p.void ++ ["LuaJIT-devel"] }
    else p
  if tes3mp_server_only then
    { p1 with debian := p1.debian ++ ["libluajit-5.1-dev"],
              ubuntu := p1.ubuntu ++ ["libluajit-5.1-dev"],
              void := p1.void ++ ["LuaJIT-devel"] }
  else p1

/-- How many LuaJIT appends the two TES3MP flags cause. -/
def tes3mpAppendCount (tes3mp tes3mp_server_only : Bool) : Nat :=
  (if tes3mp then 1 else 0) + (if tes3mp_server_only then 1 else 0)

/-- `install_packages` (lines 518-582).  Dispatches on case-insensitive
substring tests of the distro string, prefixes `sudo` depending on the
current uid (note the Fedora branch spells its uid test the other way
round, as in the source), and dies on anything unrecognised.  Returns the
trace, the outcome, and the stderr of the last package-manager call, which
`main` inspects. -/
def install_packages (p : Pkgs) (exec : Exec) (distro : String) (uid : Nat)
    (verbose : Bool) : List Eff × Outcome × Option String :=
  let t0 := [Eff.log "Attempting to install dependency packages, please enter your sudo password as needed..."]
  let d := pyLower distro
  if strContains d "void" then
    let cmd := ["xbps-install", "--yes"] ++ p.void
    let cmd := if uid > 0 then "sudo" :: cmd else cmd
    let r := runShell exec cmd verbose
    (t0 ++ [Eff.log "Distro detected as \x27Void Linux\x27"] ++ r.1
       ++ [Eff.log "Package installation completed"],
     Outcome.ok, r.2.err)
  else if strContains d "arch" then
    let cmd := ["pacman", "-sy"] ++ p.arch
    let cmd := if uid > 0 then "sudo" :: cmd else cmd
    let r := runShell exec cmd verbose
    (t0 ++ [Eff.log "Distro detected as \x27Arch Linux\x27"] ++ r.1
       ++ [Eff.log "Package installation completed"],
     Outcome.ok, r.2.err)
  else if strContains d "debian" then
    let cmd :=
      if uid > 0 then
        ["sudo", "apt-get", "install", "-y", "--force-yes"] ++ p.debian
      else ["apt-get", "install", "-y", "--force-yes"] ++ p.debian
    let r := runShell exec cmd verbose
    (t0 ++ [Eff.log "Distro detected as \x27Debian\x27"] ++ r.1
       ++ [Eff.log "Package installation completed"],
     Outcome.ok, r.2.err)
  else if strContains d "devuan" then
    let cmd :=
      if uid > 0 then
        ["sudo", "apt-get", "install", "-y", "--force-yes"] ++ p.debian
      else ["apt-get", "install", "-y", "--force-yes"] ++ p.debian
    let r := runShell exec cmd verbose
    (t0 ++ [Eff.log "Distro detected as \x27Devuan\x27"] ++ r.1
       ++ [Eff.log "Package installation completed"],
     Outcome.ok, r.2.err)
  else if strContains d "ubuntu" || strContains d "mint" then
    let cmd :=
      if uid > 0 then
        ["sudo", "apt-get", "install", "-y", "--force-yes"] ++ p.ubuntu
      else ["apt-get", "install", "-y", "--force-yes"] ++ p.ubuntu
    let r := runShell exec cmd verbose
    (t0 ++ [Eff.log "Distro detected as \x27Mint\x27 or \x27Ubuntu\x27!"] ++ r.1
       ++ [Eff.log "Package installation completed"],
     Outcome.ok, r.2.err)
  else if strContains d "fedora" then
    let grp :=
      if uid > 0 then ["dnf", "groupinstall", "-y", "development-tools"]
      else ["sudo", "dnf", "groupinstall", "-y", "development-tools"]
    let ins :=
      if uid > 0 then ["dnf", "install", "-y"] ++ p.redhat
      else ["sudo", "dnf", "install", "-y"] ++ p.redhat
    let r1 := runShell exec grp verbose
    let r2 := runShell exec ins verbose
    (t0 ++ [Eff.log "Distro detected as \x27Fedora\x27"] ++ r1.1 ++ r2.1
       ++ [Eff.log "Package installation completed"],
     Outcome.ok, r2.2.err)
  else
    (t0,
     Outcome.die "Your OS is not yet supported!  If you think you know what you are doing, you can use \x27-S\x27 to continue anyways.",
     none)

/-- `main` lines 925-929: run `install_packages` unless the skip flag was
given; stderr from the installer is logged but is not exit-worthy. -/
def main_install_step (p : Pkgs) (exec : Exec) (skip_install_pkgs : Bool)
    (distro : String) (uid : Nat) (verbose : Bool) : List Eff × Outcome :=
  if !skip_install_pkgs then
    let r := install_packages p exec distro uid verbose
    match r.2.1 with
    | Outcome.ok =>
      if optTruthy r.2.2 then
        (r.1 ++ [Eff.log ("Stderr received: " ++ r.2.2.getD "")], Outcome.ok)
      else (r.1, Outcome.ok)
    | o => (r.1, o)
  else ([], Outcome.ok)

/-- Help text of the `--system-osg` flag (lines 647-651). -/
def SYSTEM_OSG_HELP : String :=
  "Use the system-provided OSG instead of the OpenMW forked one."

/-- `main` lines 763 and 861-863: `system_osg` is initialised to `False`,
and the branch taken when `--system-osg` WAS supplied assigns `False`
again (while logging that the system OSG will be used). -/
def system_osg_after_flags (parsed_system_osg : Bool) : Bool :=
  let system_osg := false
  if parsed_system_osg then false else system_osg

/-- Which OSG build step `main` runs (lines 940-984): upstream OSG when
`--build-upstream-osg`, else the OpenMW fork unless `system_osg` is set. -/
inductive OsgChoice
  | upstream
  | fork
  | skip
  deriving DecidableEq

def osg_build_choice (build_upstream_osg system_osg : Bool) : OsgChoice :=
  if build_upstream_osg then OsgChoice.upstream
  else if !system_osg then OsgChoice.fork
  else OsgChoice.skip

/-- A Python value that is either a bool or a str, for functions whose
return type depends on the branch taken. -/
inductive PyVal
  | pyBool (b : Bool)
  | pyStr (s : String)
  deriving DecidableEq

/-- Python truthiness of a `PyVal`. -/
def pyTruthy : PyVal → Bool
  | PyVal.pyBool b => b
  | PyVal.pyStr s => s != ""

/-- Python `str(v)` / string interpolation of a `PyVal`. -/
def pyFormat : PyVal → String
  | PyVal.pyBool b => if b then "True" else "False"
  | PyVal.pyStr s => s

/-- `get_repo_sha` (lines 266-281).  `os.chdir` raises `FileNotFoundError`
when the repo directory is missing, and the handler returns the boolean
`False` despite the declared `-> str`; otherwise the commands run and the
stripped short hash from `git rev-parse` is returned as a string. -/
def get_repo_sha (fs : FS) (exec : Exec) (src_dir repo rev : String)
    (pull verbose : Bool) : PyVal × List Eff :=
  if !fs.isDir (pjoin src_dir repo) then (PyVal.pyBool false, [])
  else
    let fetchSeg :=
      if pull then [Eff.log "Fetching latest sources ..."]
        ++ shellSeg ["git", "fetch", "--all"]
      else []
    let t := [Eff.chdir (pjoin src_dir repo)] ++ fetchSeg
      ++ shellSeg ["git", "checkout", rev]
      ++ shellSeg ["git", "reset", "--hard", rev]
      ++ shellSeg ["git", "rev-parse", "--short", "HEAD"]
    (PyVal.pyStr (exec ["git", "rev-parse", "--short", "HEAD"]).out.trim, t)

/-- `main` lines 1201-1206: the OpenMW install-directory name, hashed only
when `get_repo_sha` returned a truthy value. -/
def openmwDirName (openmw_sha : PyVal) : String :=
  if pyTruthy openmw_sha then "openmw-" ++ pyFormat openmw_sha else "openmw"

/-- `main` lines 1056-1059: the TES3MP install-directory name. -/
def tes3mpDirName (tes3mp_sha : PyVal) : String :=
  if pyTruthy tes3mp_sha then "tes3mp-" ++ pyFormat tes3mp_sha else "tes3mp"

-- Concrete sample worlds and oracles used to evaluate the theorems below on
-- closed inputs.

/-- Oracle under which every command succeeds silently. -/
def execZero : Exec := fun _ => ⟨0, "", ""⟩

/-- A world with no files at all. -/
def fsNone : FS :=
  ⟨fun _ => false, fun _ => false, fun _ => false, fun _ => false⟩

/-- A world where the osg-openmw check file exists as a regular file. -/
def fsOsgCheck : FS :=
  ⟨fun p => p == "/opt/build-openmw/osg-openmw/lib64/libosg.so",
   fun p => p == "/opt/build-openmw/osg-openmw/lib64/libosg.so",
   fun _ => false, fun _ => false⟩

/-- A world where the bullet source checkout, a previous bullet install and
the bullet check file all exist. -/
def fsBullet : FS :=
  ⟨fun p => p == "/opt/build-openmw/src/bullet"
      || p == "/opt/build-openmw/bullet"
      || p == "/opt/build-openmw/bullet/lib/libLinearMath.so",
   fun p => p == "/opt/build-openmw/bullet/lib/libLinearMath.so",
   fun _ => false, fun _ => false⟩

/-- A world holding only the unshield source checkout. -/
def fsUnshieldSrc : FS :=
  ⟨fun p => p == "/opt/build-openmw/src/unshield",
   fun _ => false, fun _ => false, fun _ => false⟩

/-- Oracle failing every cmake invocation with status 1. -/
def execCmakeFail : Exec :=
  fun args => if args.head? == some "cmake" then ⟨1, "", "configure error"⟩
    else ⟨0, "", ""⟩

/-- Oracle failing every make invocation (other than `make install`) with
status 2. -/
def execMakeFail : Exec :=
  fun args => if args == ["make", "-j9"] then ⟨2, "", "compile error"⟩
    else ⟨0, "", ""⟩

/-- Oracle where `make install` exits 7 but writes nothing to stderr. -/
def execInstallFail : Exec :=
  fun args => if args == ["make", "install"] then ⟨7, "", ""⟩ else ⟨0, "", ""⟩

/-- Oracle where `make install` exits 0 but writes to stderr. -/
def execInstallErr : Exec :=
  fun args => if args == ["make", "install"] then ⟨0, "", "ldconfig whined"⟩
    else ⟨0, "", ""⟩

/-- A world where the would-be output archive already exists. -/
def fsPkg : FS :=
  ⟨fun p => p == "/home/user/out/tes3mp-abc123.tar.bz2",
   fun _ => false,
   fun p => p == "/home/user/out",
   fun _ => false⟩

/-- C1: when the designated check file exists as a regular file and force is
false, `build_library` performs no external call and no filesystem
mutation: its whole trace is the single log line saying the library was
found, and it returns normally. -/
theorem build_library_skip_no_external_calls
    (fs : FS) (exec : Exec) (libname check_file : String)
    (clone_dest : Option String) (cmake : Bool)
    (cmake_args : Option (List String)) (cmake_target : String) (cpus : Nat)
    (installPrefix git_url : String) (make_install : Bool)
    (patch : Option String) (patchCode : Int) (src_dir : String)
    (verbose : Bool) (version : String)
    (h1 : fs.pathExists check_file = true)
    (h2 : fs.isFile check_file = true) :
    build_library fs exec libname check_file clone_dest cmake cmake_args
      cmake_target cpus false installPrefix git_url make_install patch
      patchCode src_dir verbose version
      = ([Eff.log (libname ++ " found!")], Outcome.ok) := by
  simp [build_library, h1, h2]

/-- C1 witness: the skip branch evaluated on a concrete world. -/
theorem build_library_skip_no_external_calls_witness :
    build_library fsOsgCheck execZero "osg-openmw"
      "/opt/build-openmw/osg-openmw/lib64/libosg.so" none true none ".." 9
      false "/opt/build-openmw" "https://github.com/OpenMW/osg.git" true none
      0 "/opt/build-openmw/src" false "master"
      = ([Eff.log "osg-openmw found!"], Outcome.ok) :=
  build_library_skip_no_external_calls fsOsgCheck execZero "osg-openmw"
    "/opt/build-openmw/osg-openmw/lib64/libosg.so" none true none ".." 9
    "/opt/build-openmw" "https://github.com/OpenMW/osg.git" true none 0
    "/opt/build-openmw/src" false "master" (by decide) (by decide)

/-- C2: with force set, `build_library` never takes the skip branch (no
hypothesis constrains the check file): it announces the build, removes the
previous install directory under the install prefix when present, runs the
`_git_clean_src` clean-and-reset trace, and only then proceeds to the
configure/compile/install stage. -/
theorem build_library_force_rebuilds
    (fs : FS) (exec : Exec) (libname check_file : String)
    (clone_dest : Option String) (cmake : Bool)
    (cmake_args : Option (List String)) (cmake_target : String) (cpus : Nat)
    (installPrefix git_url : String) (make_install : Bool) (patchCode : Int)
    (src_dir : String) (verbose : Bool) (version : String)
    (h1 : fs.pathExists (pjoin src_dir (clone_dest.getD libname)) = true)
    (h2 : fs.pathExists (pjoin installPrefix libname) = true) :
    build_library fs exec libname check_file clone_dest cmake cmake_args
      cmake_target cpus true installPrefix git_url make_install none
      patchCode src_dir verbose version
      = ([Eff.log (libname ++ " building now ..."),
          Eff.log (libname ++ " forcing removal of previous install"),
          Eff.rmtree (pjoin installPrefix libname)]
         ++ git_clean_src libname (clone_dest.getD libname) src_dir verbose
              version
         ++ (build_library_configure fs exec libname (clone_dest.getD libname)
              cmake cmake_args cmake_target cpus installPrefix make_install
              src_dir verbose).1,
         (build_library_configure fs exec libname (clone_dest.getD libname)
           cmake cmake_args cmake_target cpus installPrefix make_install
           src_dir verbose).2) := by
  simp [build_library, build_library_after_clone, h1, h2]

/-- C2 witness: a forced bullet build on a world where the check file, the
source checkout and a previous install all exist. -/
theorem build_library_force_rebuilds_witness :
    build_library fsBullet execZero "bullet"
      "/opt/build-openmw/bullet/lib/libLinearMath.so" none true none ".." 9
      true "/opt/build-openmw" "https://github.com/bulletphysics/bullet3.git"
      true none 0 "/opt/build-openmw/src" false "2.86.1"
      = ([Eff.log "bullet building now ...",
          Eff.log "bullet forcing removal of previous install",
          Eff.rmtree (pjoin "/opt/build-openmw" "bullet")]
         ++ git_clean_src "bullet" "bullet" "/opt/build-openmw/src" false
              "2.86.1"
         ++ (build_library_configure fsBullet execZero "bullet" "bullet" true
              none ".." 9 "/opt/build-openmw" true "/opt/build-openmw/src"
              false).1,
         (build_library_configure fsBullet execZero "bullet" "bullet" true
           none ".." 9 "/opt/build-openmw" true "/opt/build-openmw/src"
           false).2) :=
  build_library_force_rebuilds fsBullet execZero "bullet"
    "/opt/build-openmw/bullet/lib/libLinearMath.so" none true none ".." 9
    "/opt/build-openmw" "https://github.com/bulletphysics/bullet3.git" true 0
    "/opt/build-openmw/src" false "2.86.1" (by decide) (by decide)

/-- C5: evaluating `_git_clean_src` at the orchestrator input for the
osg-openmw fork (whose `build_library` call leaves `version` at its default
"master") shows the dangling-else slip: after checking out the fork branch
3.4 and hard-resetting to origin/3.4, the trace goes on to check out and
hard-reset to "master", so the checkout does NOT end at the requested OSG
branch. -/
theorem git_clean_src_osg_openmw_ends_at_master :
    git_clean_src "osg-openmw" "osg-openmw" SRC_DIR false "master"
      = [Eff.chdir (pjoin SRC_DIR "osg-openmw"),
         Eff.log "osg-openmw executing source clean"]
        ++ shellSeg ["git", "checkout", "--", "."]
        ++ shellSeg ["git", "clean", "-df"]
        ++ [Eff.log "osg-openmw resetting source to the desired rev (3.4)"]
        ++ shellSeg ["git", "checkout", "3.4"]
        ++ shellSeg ["git", "reset", "--hard", "origin/3.4"]
        ++ [Eff.log "osg-openmw resetting source to the desired rev (master)"]
        ++ shellSeg ["git", "checkout", "master"]
        ++ shellSeg ["git", "reset", "--hard", "master"]
    ∧ (git_clean_src "osg-openmw" "osg-openmw" SRC_DIR false
        "master").getLast?
      = some (Eff.shell ["git", "reset", "--hard", "master"]) := by
  constructor <;> rfl

/-- C6: supplying `--system-osg` leaves `system_osg` at `False`, the exact
opposite of the flag help text (the variable is identical to its value with
the flag absent), so the OpenMW fork of OSG is still the build chosen by
the orchestrator. -/
theorem system_osg_flag_contradicts_help :
    system_osg_after_flags true = false
    ∧ system_osg_after_flags true = system_osg_after_flags false
    ∧ osg_build_choice false (system_osg_after_flags true) = OsgChoice.fork := by
  constructor <;> first | rfl | exact ⟨rfl, rfl⟩

/-- C10: when the repo directory under the source dir is missing,
`get_repo_sha` returns the Python boolean `False` (not a string, despite
its annotation) and performs nothing, and the orchestrator fallback then
names the install directory "openmw" (resp. "tes3mp") with no hash
suffix. -/
theorem get_repo_sha_missing_dir_returns_false
    (fs : FS) (exec : Exec) (src_dir repo rev : String) (pull verbose : Bool)
    (h : fs.isDir (pjoin src_dir repo) = false) :
    get_repo_sha fs exec src_dir repo rev pull verbose
      = (PyVal.pyBool false, [])
    ∧ openmwDirName (get_repo_sha fs exec src_dir repo rev pull verbose).1
      = "openmw"
    ∧ tes3mpDirName (get_repo_sha fs exec src_dir repo rev pull verbose).1
      = "tes3mp" := by
  simp [get_repo_sha, h, openmwDirName, tes3mpDirName, pyTruthy]

/-- C10 witness: the missing-repo case on the empty world. -/
theorem get_repo_sha_missing_dir_returns_false_witness :
    get_repo_sha fsNone execZero SRC_DIR "openmw" "origin/master" true false
      = (PyVal.pyBool false, [])
    ∧ openmwDirName (get_repo_sha fsNone execZero SRC_DIR "openmw"
        "origin/master" true false).1 = "openmw"
    ∧ tes3mpDirName (get_repo_sha fsNone execZero SRC_DIR "openmw"
        "origin/master" true false).1 = "tes3mp" :=
  get_repo_sha_missing_dir_returns_false fsNone execZero SRC_DIR "openmw"
    "origin/master" true false (by decide)

/-- C4: in `build_library`, a nonzero exit status from the cmake configure
step, or from the make compile step, is fatal: the run ends in
`error_and_die` (message plus exit status 1) with no retry. -/
theorem configure_and_compile_failures_fatal
    (fs : FS) (exec : Exec) (libname check_file : String)
    (clone_dest : Option String) (cmake_args : Option (List String))
    (cmake_target : String) (cpus : Nat) (force : Bool)
    (installPrefix git_url : String) (make_install : Bool) (patchCode : Int)
    (src_dir : String) (verbose : Bool) (version : String)
    (hcheck : fs.pathExists check_file = false)
    (hsrc : fs.pathExists (pjoin src_dir (clone_dest.getD libname)) = true) :
    ((exec (cmake_cmd installPrefix libname cmake_args cmake_target)).code ≠ 0 →
      (build_library fs exec libname check_file clone_dest true cmake_args
        cmake_target cpus force installPrefix git_url make_install none
        patchCode src_dir verbose version).2
        = Outcome.die "cmake exited nonzero!")
    ∧ ((exec (cmake_cmd installPrefix libname cmake_args cmake_target)).code = 0 →
      (exec ["make", "-j" ++ toString cpus]).code ≠ 0 →
      (build_library fs exec libname check_file clone_dest true cmake_args
        cmake_target cpus force installPrefix git_url make_install none
        patchCode src_dir verbose version).2
        = Outcome.die "make exited nonzero!") := by
  constructor
  · intro h
    simp [build_library, build_library_after_clone, build_library_configure,
      runShell, hcheck, hsrc, h]
  · intro h0 h
    simp [build_library, build_library_after_clone, build_library_configure,
      build_library_compile, runShell, hcheck, hsrc, h0, h]

/-- C4 witness: a failed configure and a failed compile, each on a concrete
world and oracle, both end in `error_and_die`. -/
theorem configure_and_compile_failures_fatal_witness :
    (build_library fsUnshieldSrc execCmakeFail "unshield" "/check-absent"
      none true none ".." 9 false "/opt/build-openmw"
      "https://github.com/twogood/unshield.git" true none 0
      "/opt/build-openmw/src" false "1.4.2").2
      = Outcome.die "cmake exited nonzero!"
    ∧ (build_library fsUnshieldSrc execMakeFail "unshield" "/check-absent"
      none true none ".." 9 false "/opt/build-openmw"
      "https://github.com/twogood/unshield.git" true none 0
      "/opt/build-openmw/src" false "1.4.2").2
      = Outcome.die "make exited nonzero!" :=
  ⟨(configure_and_compile_failures_fatal fsUnshieldSrc execCmakeFail
      "unshield" "/check-absent" none none ".." 9 false "/opt/build-openmw"
      "https://github.com/twogood/unshield.git" true 0 "/opt/build-openmw/src"
      false "1.4.2" (by decide) (by decide)).1 (by decide),
   (configure_and_compile_failures_fatal fsUnshieldSrc execMakeFail
      "unshield" "/check-absent" none none ".." 9 false "/opt/build-openmw"
      "https://github.com/twogood/unshield.git" true 0 "/opt/build-openmw/src"
      false "1.4.2" (by decide) (by decide)).2 (by decide) (by decide)⟩

/-- C9 counterexample: `make install` exits with status 7 while writing
nothing to stderr, and the build run still ends normally — a nonzero exit
status from the install step is NOT fatal, refuting the claim on this
input. -/
theorem make_install_nonzero_exit_not_fatal :
    (execInstallFail ["make", "install"]).code = 7
    ∧ (build_library fsUnshieldSrc execInstallFail "unshield"
      "/check-absent" none true none ".." 9 false "/opt/build-openmw"
      "https://github.com/twogood/unshield.git" true none 0
      "/opt/build-openmw/src" false "1.4.2").2 = Outcome.ok := by
  constructor <;> rfl

/-- C9 amended: the install step consults only the captured stderr of
`make install` (`if err:`), never its exit status: in a non-verbose run
that reaches it, the build dies with the stderr contents exactly when that
stderr is non-empty, and returns normally otherwise, whatever the exit
status was. -/
theorem make_install_fatal_iff_nonempty_stderr
    (fs : FS) (exec : Exec) (libname check_file : String)
    (clone_dest : Option String) (cmake_args : Option (List String))
    (cmake_target : String) (cpus : Nat) (force : Bool)
    (installPrefix git_url : String) (patchCode : Int) (src_dir : String)
    (version : String)
    (hcheck : fs.pathExists check_file = false)
    (hsrc : fs.pathExists (pjoin src_dir (clone_dest.getD libname)) = true)
    (hcmake : (exec (cmake_cmd installPrefix libname cmake_args
      cmake_target)).code = 0)
    (hmake : (exec ["make", "-j" ++ toString cpus]).code = 0) :
    (build_library fs exec libname check_file clone_dest true cmake_args
      cmake_target cpus force installPrefix git_url true none patchCode
      src_dir false version).2
      = (if (exec ["make", "install"]).err = "" then Outcome.ok
         else Outcome.die (exec ["make", "install"]).err) := by
  by_cases he : (exec ["make", "install"]).err = "" <;>
    simp [build_library, build_library_after_clone, build_library_configure,
      build_library_compile, runShell, optTruthy, hcheck, hsrc, hcmake,
      hmake, he]

/-- C9 amended witness: an install step that exits 0 but writes to stderr
is fatal with that stderr as the message. -/
theorem make_install_fatal_iff_nonempty_stderr_witness :
    (build_library fsUnshieldSrc execInstallErr "unshield" "/check-absent"
      none true none ".." 9 false "/opt/build-openmw"
      "https://github.com/twogood/unshield.git" true none 0
      "/opt/build-openmw/src" false "1.4.2").2
      = (if (execInstallErr ["make", "install"]).err = "" then Outcome.ok
         else Outcome.die (execInstallErr ["make", "install"]).err) :=
  make_install_fatal_iff_nonempty_stderr fsUnshieldSrc execInstallErr
    "unshield" "/check-absent" none none ".." 9 false "/opt/build-openmw"
    "https://github.com/twogood/unshield.git" 0 "/opt/build-openmw/src"
    "1.4.2" (by decide) (by decide) (by decide) (by decide)

/-- C3 counterexample: on an Arch Linux host (a distro the dependency
installer supports but the packager staging tables do not), with the output
archive already present and force set, the packager removes the existing
archive and then crashes on the unbound `system_libs` name: the removal is
the only archive write in the trace, so no new archive is created, refuting
the claim that force replaces the archive. -/
theorem make_portable_package_force_removes_without_recreating :
    Eff.remove "/home/user/out/tes3mp-abc123.tar.bz2"
      ∈ (make_portable_package fsPkg "tes3mp-abc123" "Arch Linux" true
          "/home/user/out" false false "/tmp/stage").1
    ∧ (make_portable_package fsPkg "tes3mp-abc123" "Arch Linux" true
        "/home/user/out" false false "/tmp/stage").2 = Outcome.exn "NameError"
    ∧ (make_portable_package fsPkg "tes3mp-abc123" "Arch Linux" true
        "/home/user/out" false false "/tmp/stage").1.filter isArchiveWrite
      = [Eff.remove "/home/user/out/tes3mp-abc123.tar.bz2"] := by
  refine ⟨?_, ?_, ?_⟩ <;> decide

/-- C3 amended: `make_portable_package` never overwrites an existing archive
unless forced: when the output path exists and force is false it dies with
nonzero status and its trace contains no archive write or removal at all;
when the path exists and force is true AND the staging tables are defined
for the host (a TES3MP_FORGE build, or a distro string containing Void,
Ubuntu or Debian), the old archive is removed, a new one is created, and
the packager returns normally. -/
theorem make_portable_package_overwrite_guard
    (fs : FS) (pkgname distro : String) (force : Bool) (out_dir : String)
    (serveronly tes3mpForge : Bool) (tmpdir : String)
    (hexists : fs.pathExists (pjoin out_dir (pkgname ++ ".tar.bz2")) = true) :
    (force = false →
      (make_portable_package fs pkgname distro force out_dir serveronly
        tes3mpForge tmpdir).2
        = Outcome.die ("Path exists: " ++ pjoin out_dir (pkgname ++ ".tar.bz2"))
      ∧ (make_portable_package fs pkgname distro force out_dir serveronly
          tes3mpForge tmpdir).1.filter isArchiveWrite = [])
    ∧ (force = true →
      (tes3mpForge = true ∨ strContains distro "Void" = true
        ∨ strContains distro "Ubuntu" = true
        ∨ strContains distro "Debian" = true) →
      Eff.remove (pjoin out_dir (pkgname ++ ".tar.bz2"))
        ∈ (make_portable_package fs pkgname distro force out_dir serveronly
            tes3mpForge tmpdir).1
      ∧ Eff.tarCreate (pjoin out_dir (pkgname ++ ".tar.bz2"))
        ∈ (make_portable_package fs pkgname distro force out_dir serveronly
            tes3mpForge tmpdir).1
      ∧ (make_portable_package fs pkgname distro force out_dir serveronly
          tes3mpForge tmpdir).2 = Outcome.ok) := by
  constructor
  · intro hf
    subst hf
    constructor
    · simp [make_portable_package, hexists]
    · by_cases hd : fs.isDir out_dir <;>
        simp [make_portable_package, hexists, hd, isArchiveWrite]
  · intro hf hsup
    subst hf
    rcases hsup with h | h | h | h
    · simp [make_portable_package, hexists, h]
    · cases h1 : tes3mpForge <;> simp [make_portable_package, hexists, h, h1]
    · cases h1 : tes3mpForge <;> cases h2 : strContains distro "Void" <;>
        simp [make_portable_package, hexists, h, h1, h2]
    · cases h1 : tes3mpForge <;> cases h2 : strContains distro "Void" <;>
        cases h3 : strContains distro "Ubuntu" <;>
          simp [make_portable_package, hexists, h, h1, h2, h3]

/-- C3 witness: both halves of the overwrite guard evaluated on a concrete
world where the archive path already exists. -/
theorem make_portable_package_overwrite_guard_witness :
    ((make_portable_package fsPkg "tes3mp-abc123" "Void Linux" false
        "/home/user/out" false false "/tmp/stage").2
      = Outcome.die "Path exists: /home/user/out/tes3mp-abc123.tar.bz2"
      ∧ (make_portable_package fsPkg "tes3mp-abc123" "Void Linux" false
          "/home/user/out" false false "/tmp/stage").1.filter isArchiveWrite
        = [])
    ∧ (Eff.remove "/home/user/out/tes3mp-abc123.tar.bz2"
        ∈ (make_portable_package fsPkg "tes3mp-abc123" "Void Linux" true
            "/home/user/out" false false "/tmp/stage").1
      ∧ Eff.tarCreate "/home/user/out/tes3mp-abc123.tar.bz2"
        ∈ (make_portable_package fsPkg "tes3mp-abc123" "Void Linux" true
            "/home/user/out" false false "/tmp/stage").1
      ∧ (make_portable_package fsPkg "tes3mp-abc123" "Void Linux" true
          "/home/user/out" false false "/tmp/stage").2 = Outcome.ok) :=
  ⟨(make_portable_package_overwrite_guard fsPkg "tes3mp-abc123" "Void Linux"
      false "/home/user/out" false false "/tmp/stage" (by decide)).1 rfl,
   (make_portable_package_overwrite_guard fsPkg "tes3mp-abc123" "Void Linux"
      true "/home/user/out" false false "/tmp/stage" (by decide)).2 rfl
     (Or.inr (Or.inl (by decide)))⟩

/-- C7: when the lowercased distro string matches none of the supported
families, `install_packages` ends in `error_and_die` with the unsupported-OS
message; and when the skip flag is given, the dependency-install step of
`main` performs nothing at all, so `install_packages` is never invoked. -/
theorem unsupported_distro_fatal_unless_skipped
    (p : Pkgs) (exec : Exec) (distro : String) (uid : Nat) (verbose : Bool)
    (h1 : strContains (pyLower distro) "void" = false)
    (h2 : strContains (pyLower distro) "arch" = false)
    (h3 : strContains (pyLower distro) "debian" = false)
    (h4 : strContains (pyLower distro) "devuan" = false)
    (h5 : strContains (pyLower distro) "ubuntu" = false)
    (h6 : strContains (pyLower distro) "mint" = false)
    (h7 : strContains (pyLower distro) "fedora" = false) :
    (install_packages p exec distro uid verbose).2.1
      = Outcome.die "Your OS is not yet supported!  If you think you know what you are doing, you can use \x27-S\x27 to continue anyways."
    ∧ ∀ (q : Pkgs) (exec2 : Exec) (d2 : String) (uid2 : Nat) (v2 : Bool),
        main_install_step q exec2 true d2 uid2 v2 = ([], Outcome.ok) := by
  constructor
  · simp [install_packages, h1, h2, h3, h4, h5, h6, h7]
  · intro q exec2 d2 uid2 v2
    rfl

/-- C7 witness: a Gentoo host is unsupported and fatal, and the skip flag
performs nothing. -/
theorem unsupported_distro_fatal_unless_skipped_witness :
    (install_packages initPkgs execZero "Gentoo" 1000 false).2.1
      = Outcome.die "Your OS is not yet supported!  If you think you know what you are doing, you can use \x27-S\x27 to continue anyways."
    ∧ main_install_step initPkgs execZero true "Gentoo" 1000 false
      = ([], Outcome.ok) :=
  ⟨(unsupported_distro_fatal_unless_skipped initPkgs execZero "Gentoo" 1000
      false (by decide) (by decide) (by decide) (by decide) (by decide)
      (by decide) (by decide)).1,
   (unsupported_distro_fatal_unless_skipped initPkgs execZero "Gentoo" 1000
      false (by decide) (by decide) (by decide) (by decide) (by decide)
      (by decide) (by decide)).2 initPkgs execZero "Gentoo" 1000 false⟩

set_option maxRecDepth 100000 in
/-- C8 counterexample: two runs of `install_packages` that see the very same
distro string (a Debian host) but different prior program state — `main`
appended a LuaJIT package to the global Debian list because `--tes3mp` was
given in one run and not the other — invoke the package manager with
different package lists, so the selection is not a pure function of the
distro string. -/
theorem package_list_not_pure_function_of_distro :
    (install_packages (applyTes3mpFlags true false initPkgs) execZero
        "Debian GNU/Linux 10" 1000 false).1
      ≠ (install_packages (applyTes3mpFlags false false initPkgs) execZero
          "Debian GNU/Linux 10" 1000 false).1 := by
  decide

/-- C8 amended: the package list passed to the package manager is a pure
function of the detected distribution string together with the number of
LuaJIT appends the TES3MP flags caused on the global lists (each of
`--tes3mp` and `--tes3mp-server-only` appends once): runs agreeing on the
distro string and on that count produce identical installer behaviour. -/
theorem package_list_pure_in_distro_and_flag_count
    (t1 s1 t2 s2 : Bool) (exec : Exec) (distro : String) (uid : Nat)
    (verbose : Bool)
    (h : tes3mpAppendCount t1 s1 = tes3mpAppendCount t2 s2) :
    install_packages (applyTes3mpFlags t1 s1 initPkgs) exec distro uid verbose
      = install_packages (applyTes3mpFlags t2 s2 initPkgs) exec distro uid
          verbose := by
  cases t1 <;> cases s1 <;> cases t2 <;> cases s2 <;>
    first
      | rfl
      | (exfalso; simp [tes3mpAppendCount] at h)

/-- C8 amended witness: `--tes3mp` alone and `--tes3mp-server-only` alone
cause the same single append, hence identical installer runs. -/
theorem package_list_pure_in_distro_and_flag_count_witness :
    install_packages (applyTes3mpFlags true false initPkgs) execZero
      "Void Linux" 0 false
      = install_packages (applyTes3mpFlags false true initPkgs) execZero
          "Void Linux" 0 false :=
  package_list_pure_in_distro_and_flag_count true false false true execZero
    "Void Linux" 0 false (by decide)

end BuildOpenmw
